import Mathlib

/-!
Verification of the qasm-parser-testing repository (rust_parser crate).

The repository is a thin validation shim around an external OpenQASM 3
language front end:

* `src/parsers/rust_parser/src/lib.rs` defines `parse_qasm3`, which hands
  the source string to the external front end and fails with the fixed
  message "Parsing failed" exactly when the front end reports at least one
  parse error.
* `src/parsers/rust_parser/src/main.rs` defines the command-line entry
  point: arity check, one call to `parse_qasm3`, and translation of its
  result to an exit status plus diagnostic-stream output.

The external front end (the `oq3_source_file` crate) is not part of the
repository, so it is modelled abstractly as a function from source strings
to parse results carrying a list of parse-error indicators.  The entry
point is modelled as a pure function from the argument vector to an
`Option MainResult`: `none` models a panic (the out-of-bounds `args[0]`
access), `some r` records the exit code, the lines written to the normal
stream, the lines written to the diagnostic stream, and whether the
validation function was invoked.
-/

namespace QasmParser

/-- The result the external front end returns for one source string: a
parse result carrying zero or more parse-error indicators, plus other
content (warnings, recovered substructures) that the shim never inspects,
abstracted here as a list of warning strings. -/
structure ParseResult where
  errors : List String
  warnings : List String
deriving DecidableEq

/-- The external language front end, abstracted as its observable
behaviour: a map from source strings to parse results. -/
def FrontEnd : Type := String → ParseResult

/-- `any_parse_errors` of the external parse result: true iff at least one
parse-error indicator is present. -/
def ParseResult.any_parse_errors (r : ParseResult) : Bool :=
  !r.errors.isEmpty

/-- Embedding of `parse_qasm3` from src/parsers/rust_parser/src/lib.rs:
parse the source with the front end; if the result has any parse errors,
fail with the fixed string "Parsing failed", else succeed. -/
def parse_qasm3 (fe : FrontEnd) (source : String) : Except String Unit :=
  if (fe source).any_parse_errors then
    Except.error "Parsing failed"
  else
    Except.ok ()

/-- Observable outcome of one run of the entry point: process exit code,
lines written to the normal stream, lines written to the diagnostic
stream, and whether the validation function was invoked. -/
structure MainResult where
  exitCode : Nat
  stdoutLines : List String
  stderrLines : List String
  validatorInvoked : Bool
deriving DecidableEq

/-- Embedding of `main` from src/parsers/rust_parser/src/main.rs, as a
function of the front end and the process argument vector.  `none` models
a panic: the usage branch indexes `args[0]`, which is out of bounds when
the argument vector is empty. -/
def mainRun (fe : FrontEnd) (args : List String) : Option MainResult :=
  if args.length ≠ 2 then
    match args.head? with
    | none => none
    | some prog =>
        some ⟨1, [], ["Usage: " ++ prog ++ " <qasm-string>"], false⟩
  else
    match args with
    | [_prog, source] =>
        match parse_qasm3 fe source with
        | Except.ok _ => some ⟨0, [], [], true⟩
        | Except.error e => some ⟨1, [], ["Error: " ++ e], true⟩
    | _ => none

/-- The test input from `test_parse` in lib.rs (and the spec's example
scenario 1). -/
def testSource : String := "OPENQASM 3.0;\nqubit q;"

/-- Modelled from the spec: the external language front end itself is not
part of this repository's sources.  The spec (example scenario 1) and the
repository's own test `test_parse` record its verdict on the example
input: zero parse errors for "OPENQASM 3.0;\nqubit q;".  Its behaviour on
every other input is left abstract; this concrete model rejects them,
which matches the spec's expectation for the empty document. -/
def specFrontEnd : FrontEnd := fun s =>
  if s = testSource then ⟨[], []⟩ else ⟨["parse error"], []⟩

/- Shared helper lemmas about `mainRun`. -/

/-- On the empty argument vector the entry point panics (out-of-bounds
`args[0]`), modelled as `none`. -/
theorem mainRun_nil (fe : FrontEnd) : mainRun fe [] = none := rfl

/-- On a nonempty argument vector of length ≠ 2, the entry point produces
the usage outcome. -/
theorem mainRun_usage (fe : FrontEnd) (p : String) (t : List String)
    (h : (p :: t).length ≠ 2) :
    mainRun fe (p :: t) =
      some ⟨1, [], ["Usage: " ++ p ++ " <qasm-string>"], false⟩ := by
  unfold mainRun
  rw [if_pos h]
  rfl

/-- With exactly two arguments the entry point runs the validator and
translates its result. -/
theorem mainRun_two (fe : FrontEnd) (prog source : String) :
    mainRun fe [prog, source] =
      match parse_qasm3 fe source with
      | Except.ok _ => some ⟨0, [], [], true⟩
      | Except.error e => some ⟨1, [], ["Error: " ++ e], true⟩ := by
  unfold mainRun
  rw [if_neg (by simp)]

/-- Zero parse errors from the front end means `parse_qasm3` succeeds. -/
theorem parse_qasm3_ok_of_no_errors (fe : FrontEnd) (s : String)
    (h : (fe s).errors = []) : parse_qasm3 fe s = Except.ok () := by
  unfold parse_qasm3 ParseResult.any_parse_errors
  simp [h]

/-- At least one parse error from the front end means `parse_qasm3` fails
with the fixed message. -/
theorem parse_qasm3_err_of_errors (fe : FrontEnd) (s : String)
    (h : (fe s).errors ≠ []) :
    parse_qasm3 fe s = Except.error "Parsing failed" := by
  unfold parse_qasm3 ParseResult.any_parse_errors
  simp [h]

/-- The success branch of the entry point's result translation. -/
theorem mainRun_two_ok (fe : FrontEnd) (prog source : String)
    (h : parse_qasm3 fe source = Except.ok ()) :
    mainRun fe [prog, source] = some ⟨0, [], [], true⟩ := by
  rw [mainRun_two, h]

/-- The failure branch of the entry point's result translation. -/
theorem mainRun_two_err (fe : FrontEnd) (prog source e : String)
    (h : parse_qasm3 fe source = Except.error e) :
    mainRun fe [prog, source] = some ⟨1, [], ["Error: " ++ e], true⟩ := by
  rw [mainRun_two, h]

/-- C1: `parse_qasm3` fails if and only if the front end reports one or
more parse errors for the source, every failure carries exactly the fixed
string "Parsing failed", and with zero parse errors it succeeds regardless
of any other content of the parse result (the `warnings` component is
universally quantified away by the statement holding for every front
end). -/
theorem parse_qasm3_result_policy (fe : FrontEnd) (source : String) :
    (parse_qasm3 fe source = Except.error "Parsing failed" ↔
      (fe source).errors ≠ []) ∧
    (∀ e, parse_qasm3 fe source = Except.error e → e = "Parsing failed") ∧
    ((fe source).errors = [] → parse_qasm3 fe source = Except.ok ()) := by
  unfold parse_qasm3 ParseResult.any_parse_errors
  rcases h : (fe source).errors with _ | ⟨a, as⟩ <;> simp [h]

/-- Witness for C1 at concrete front ends: the success branch with zero
errors and the failure branch with one error. -/
theorem parse_qasm3_result_policy_witness :
    parse_qasm3 (fun _ => ⟨[], []⟩) "" = Except.ok () ∧
    parse_qasm3 (fun _ => ⟨["e"], []⟩) "x" = Except.error "Parsing failed" :=
  ⟨(parse_qasm3_result_policy (fun _ => ⟨[], []⟩) "").2.2 rfl,
   (parse_qasm3_result_policy (fun _ => ⟨["e"], []⟩) "x").1.mpr (by simp)⟩

/-- C5: the validation outcome is a pure function of the source text and
the front end's (grammar's) parse result for it: whenever two invocations
see the same parse result for their source, the outcomes are equal.  In
particular two invocations with the same front end and source always
agree, and no other state participates (the embedding takes no other
argument). -/
theorem validation_outcome_pure (fe fe' : FrontEnd) (s t : String)
    (h : fe s = fe' t) :
    parse_qasm3 fe s = parse_qasm3 fe' t := by
  unfold parse_qasm3
  rw [h]

/-- Witness for C5: two invocations on the same source with the same
front end yield equal outcomes. -/
theorem validation_outcome_pure_witness :
    parse_qasm3 specFrontEnd testSource = parse_qasm3 specFrontEnd testSource :=
  validation_outcome_pure specFrontEnd specFrontEnd testSource testSource rfl

/-- C6: `parse_qasm3` always returns an ordinary result value — for every
front end and input it is `Ok ()` or `Err "Parsing failed"`; it never
aborts the calling process (the embedding is a total function into
`Except`, with no panic case). -/
theorem parse_qasm3_never_fatal (fe : FrontEnd) (s : String) :
    parse_qasm3 fe s = Except.ok () ∨
    parse_qasm3 fe s = Except.error "Parsing failed" := by
  unfold parse_qasm3
  split <;> simp

/-- C7: the empty string is not special-cased: `parse_qasm3` applied to
`""` fails exactly when the front end reports a parse error for the empty
document, and any source on which the front end returns the same parse
result as on `""` gets the same outcome (same code path). -/
theorem empty_string_ordinary (fe : FrontEnd) :
    ((parse_qasm3 fe "").isOk ↔ (fe "").any_parse_errors = false) ∧
    (∀ s, fe s = fe "" → parse_qasm3 fe s = parse_qasm3 fe "") := by
  constructor
  · unfold parse_qasm3
    rcases h : (fe "").any_parse_errors <;>
      simp [h, Except.isOk, Except.toBool]
  · intro s hs
    unfold parse_qasm3
    rw [hs]

/-- Witness for C7: under the spec-modelled front end, the empty document
has a parse error and `parse_qasm3 ""` fails accordingly. -/
theorem empty_string_ordinary_witness :
    ((parse_qasm3 specFrontEnd "").isOk ↔
      (specFrontEnd "").any_parse_errors = false) ∧
    parse_qasm3 specFrontEnd "" = parse_qasm3 specFrontEnd "" :=
  ⟨(empty_string_ordinary specFrontEnd).1,
   (empty_string_ordinary specFrontEnd).2 "" rfl⟩

/-- C2 counterexample: the claim quantifies over every argument vector of
length ≠ 2, but on the empty vector the usage branch indexes `args[0]`
out of bounds and panics (modelled as `none`), so no usage message is
written and the process does not terminate with exit status 1 via the
usage branch. -/
theorem main_usage_counterexample :
    mainRun (fun _ => ⟨[], []⟩) [] = none :=
  mainRun_nil (fun _ => ⟨[], []⟩)

/-- C2 (amended): for every NONEMPTY argument vector whose length is not
exactly two, the entry point writes `Usage: <program-name> <qasm-string>`
to the diagnostic stream, terminates with exit status 1, writes nothing
to the normal stream, and never invokes the validation function. -/
theorem main_usage_on_bad_arity (fe : FrontEnd) (args : List String)
    (hne : args ≠ []) (hlen : args.length ≠ 2) :
    mainRun fe args =
      some ⟨1, [], ["Usage: " ++ args.head hne ++ " <qasm-string>"],
        false⟩ := by
  match args, hne with
  | p :: t, _ => exact mainRun_usage fe p t hlen

/-- Witness for C2 (amended) at the one-element vector ["prog"]. -/
theorem main_usage_on_bad_arity_witness :
    mainRun (fun _ => ⟨[], []⟩) ["prog"] =
      some ⟨1, [], ["Usage: " ++ "prog" ++ " <qasm-string>"], false⟩ :=
  main_usage_on_bad_arity (fun _ => ⟨[], []⟩) ["prog"]
    (by simp) (by simp)

/-- C3: with exactly one source argument the entry point invokes the
validation function and performs exactly one translation of its result:
`Ok` terminates with exit 0 and no output on any stream; `Err e`
terminates with exit 1 after writing the single diagnostic line
`Error: <e>`. -/
theorem main_translates_validation (fe : FrontEnd) (prog source : String) :
    (parse_qasm3 fe source = Except.ok () →
      mainRun fe [prog, source] = some ⟨0, [], [], true⟩) ∧
    (∀ e, parse_qasm3 fe source = Except.error e →
      mainRun fe [prog, source] =
        some ⟨1, [], ["Error: " ++ e], true⟩) := by
  refine ⟨fun hok => ?_, fun e herr => ?_⟩
  · rw [mainRun_two, hok]
  · rw [mainRun_two, herr]

/-- Witness for C3: both translation branches at concrete front ends. -/
theorem main_translates_validation_witness :
    mainRun (fun _ => ⟨[], []⟩) ["prog", "src"] = some ⟨0, [], [], true⟩ ∧
    mainRun (fun _ => ⟨["e"], []⟩) ["prog", "src"] =
      some ⟨1, [], ["Error: " ++ "Parsing failed"], true⟩ :=
  ⟨(main_translates_validation (fun _ => ⟨[], []⟩) "prog" "src").1 rfl,
   (main_translates_validation (fun _ => ⟨["e"], []⟩) "prog" "src").2
     "Parsing failed" rfl⟩

/-- C4: when the front end accepts the source (zero parse errors),
`parse_qasm3` succeeds and the process exits 0; when the front end
reports at least one parse error, `parse_qasm3` fails and the process
exits 1 with a non-empty diagnostic message. -/
theorem validate_exit_codes (fe : FrontEnd) (prog source : String) :
    ((fe source).errors = [] →
      parse_qasm3 fe source = Except.ok () ∧
      mainRun fe [prog, source] = some ⟨0, [], [], true⟩) ∧
    ((fe source).errors ≠ [] →
      parse_qasm3 fe source = Except.error "Parsing failed" ∧
      mainRun fe [prog, source] =
        some ⟨1, [], ["Error: " ++ "Parsing failed"], true⟩ ∧
      "Error: " ++ "Parsing failed" ≠ "") := by
  refine ⟨fun hok => ?_, fun herr => ?_⟩
  · have h1 := parse_qasm3_ok_of_no_errors fe source hok
    exact ⟨h1, mainRun_two_ok fe prog source h1⟩
  · have h1 := parse_qasm3_err_of_errors fe source herr
    exact ⟨h1, mainRun_two_err fe prog source "Parsing failed" h1,
      by decide⟩

/-- Witness for C4: both branches at concrete front ends. -/
theorem validate_exit_codes_witness :
    (parse_qasm3 (fun _ => ⟨[], []⟩) "ok" = Except.ok () ∧
      mainRun (fun _ => ⟨[], []⟩) ["prog", "ok"] =
        some ⟨0, [], [], true⟩) ∧
    (parse_qasm3 (fun _ => ⟨["e"], []⟩) "bad" =
        Except.error "Parsing failed" ∧
      mainRun (fun _ => ⟨["e"], []⟩) ["prog", "bad"] =
        some ⟨1, [], ["Error: " ++ "Parsing failed"], true⟩ ∧
      "Error: " ++ "Parsing failed" ≠ "") :=
  ⟨(validate_exit_codes (fun _ => ⟨[], []⟩) "prog" "ok").1 rfl,
   (validate_exit_codes (fun _ => ⟨["e"], []⟩) "prog" "bad").2 (by simp)⟩

/-- C8: for the input "OPENQASM 3.0;\nqubit q;", whose acceptance by the
external front end is recorded by the repository's test `test_parse` and
the spec's example scenario 1, `parse_qasm3` succeeds and the process
exits with status 0. -/
theorem test_parse (fe : FrontEnd)
    (h : (fe testSource).errors = []) :
    parse_qasm3 fe testSource = Except.ok () ∧
    ∀ prog, mainRun fe [prog, testSource] = some ⟨0, [], [], true⟩ := by
  have h1 := parse_qasm3_ok_of_no_errors fe testSource h
  exact ⟨h1, fun prog => mainRun_two_ok fe prog testSource h1⟩

/-- Witness for C8 at the spec-modelled front end. -/
theorem test_parse_witness :
    parse_qasm3 specFrontEnd testSource = Except.ok () ∧
    mainRun specFrontEnd ["rust_parser", testSource] =
      some ⟨0, [], [], true⟩ := by
  have h := test_parse specFrontEnd (by simp [specFrontEnd])
  exact ⟨h.1, h.2 "rust_parser"⟩

/-- C9: the usage guarantee holds only for nonempty argument vectors: on
the empty vector the `args[0]` access is out of bounds (modelled as
`none`, no usage outcome), while every nonempty vector of wrong arity does
produce the usage outcome. -/
theorem usage_branch_needs_nonempty (fe : FrontEnd) :
    mainRun fe [] = none ∧
    ∀ p t, (p :: t).length ≠ 2 →
      mainRun fe (p :: t) =
        some ⟨1, [], ["Usage: " ++ p ++ " <qasm-string>"], false⟩ :=
  ⟨mainRun_nil fe, fun p t h => mainRun_usage fe p t h⟩

/-- Witness for C9: the usage outcome at a concrete three-element
vector. -/
theorem usage_branch_needs_nonempty_witness :
    mainRun (fun _ => ⟨[], []⟩) [] = none ∧
    mainRun (fun _ => ⟨[], []⟩) ["p", "a", "b"] =
      some ⟨1, [], ["Usage: " ++ "p" ++ " <qasm-string>"], false⟩ :=
  ⟨(usage_branch_needs_nonempty (fun _ => ⟨[], []⟩)).1,
   (usage_branch_needs_nonempty (fun _ => ⟨[], []⟩)).2 "p" ["a", "b"]
     (by simp)⟩

/-- C10: on every path of the entry point that produces an outcome,
nothing is written to the standard output stream, and on the success path
(exit 0) nothing is written to any stream. -/
theorem main_stdout_silent (fe : FrontEnd) (args : List String)
    (r : MainResult) (h : mainRun fe args = some r) :
    r.stdoutLines = [] ∧ (r.exitCode = 0 → r.stderrLines = []) := by
  match args with
  | [] =>
      rw [mainRun_nil] at h
      exact absurd h (by simp)
  | [p] =>
      rw [mainRun_usage fe p [] (by simp)] at h
      injection h with h
      subst h
      simp
  | [prog, source] =>
      rw [mainRun_two] at h
      rcases hp : parse_qasm3 fe source with e | u <;> rw [hp] at h <;>
        injection h with h <;> subst h <;> simp
  | p :: a :: b :: t =>
      rw [mainRun_usage fe p (a :: b :: t) (by simp)] at h
      injection h with h
      subst h
      simp

/-- Witness for C10 on the success path. -/
theorem main_stdout_silent_witness :
    MainResult.stdoutLines ⟨0, [], [], true⟩ = [] ∧
    (MainResult.exitCode ⟨0, [], [], true⟩ = 0 →
      MainResult.stderrLines ⟨0, [], [], true⟩ = []) :=
  main_stdout_silent (fun _ => ⟨[], []⟩) ["p", "s"] ⟨0, [], [], true⟩
    (mainRun_two_ok (fun _ => ⟨[], []⟩) "p" "s" rfl)

end QasmParser
